import Mathlib

/-!
Verification development for the Smart-eCommerce-Intelligence repository.

Shallow embedding of:
* `src/mcp/mcp_base.py` — the permission-checked request router (MCPHost /
  MCPServer / MCPRequest / MCPResponse);
* `src/Analyse/simple_analyzer.py` — `SimpleTopKAnalyzer.get_top_k`;
* `src/agents/ShopifyAgent.py` — `scrape_products` pagination and per-listing
  variant parsing;
* `src/agents/BaseA2AAgent.py` — `normalize_product_data` and its helpers.

Modelling conventions:
* Python machine floats are modelled by `ℚ`; `float('inf')` as the initial
  minimum-price accumulator is modelled by `Option ℚ` (`none` = infinity).
* Python exceptions raised by a handler are modelled by `Except String α`
  (`Except.error msg` is a raised exception with message `str(e) = msg`).
* `datetime.now()` timestamps are passed in as an explicit `now` parameter.
* Side effects that do not alter the returned values (logging, the optional
  database writes performed by the real-time analysis blocks of
  `scrape_products`, retry sleeps) are not part of the state being modelled.
-/

namespace SmartEcom

/-! ## Python dictionary lookup helper (`dict.get(key, default)`). -/

/-- Python `d.get(k, default)` for a string-keyed mapping represented as an
association list (first binding wins, as in a dict there is at most one). -/
def dictGet {β : Type _} (d : List (String × β)) (k : String) (default : β) : β :=
  match d.find? (fun p => p.1 == k) with
  | some p => p.2
  | none => default

/-! ## MCP router (`src/mcp/mcp_base.py`) -/

/-- `MCPRequest` (mcp_base.py lines 7-15): a request made through the MCP.
`parameters` and `context` are open string-keyed maps; the data type `α`
stands for Python's `Any`. -/
structure MCPRequest (α : Type _) where
  request_id : String
  timestamp : Nat
  source : String
  action : String
  parameters : List (String × α)
  context : List (String × α)

/-- `MCPResponse` (mcp_base.py lines 17-24): a response from the MCP. -/
structure MCPResponse (α : Type _) where
  request_id : String
  timestamp : Nat
  status : String
  data : Option α
  error : Option String := none

/-- An `MCPServer` (mcp_base.py lines 98-144): its static permission table
(source identity → allowed action names) and its `_process_request` body.
A Python exception raised by `_process_request` is the `Except.error` case,
carrying `str(e)`. -/
structure MCPServer (α : Type _) where
  name : String
  permissions : List (String × List String)
  process_request : MCPRequest α → Except String α

/-- `MCPServer.can_handle` (mcp_base.py lines 107-109):
`request.action in self.permissions.get(request.source, [])`. -/
def MCPServer.can_handle {α : Type _} (s : MCPServer α) (request : MCPRequest α) : Bool :=
  decide (request.action ∈ dictGet s.permissions request.source [])

/-- `MCPServer.handle_request` (mcp_base.py lines 111-139): deny when
`can_handle` fails, otherwise run `_process_request` under a `try/except`
boundary that turns a raised exception into a status-"error" response. -/
def MCPServer.handle_request {α : Type _} (s : MCPServer α) (now : Nat)
    (request : MCPRequest α) : MCPResponse α :=
  if s.can_handle request = false then
    { request_id := request.request_id, timestamp := now, status := "error",
      data := none, error := some "Permission denied" }
  else
    match s.process_request request with
    | Except.ok result =>
        { request_id := request.request_id, timestamp := now, status := "success",
          data := some result, error := none }
    | Except.error e =>
        { request_id := request.request_id, timestamp := now, status := "error",
          data := none, error := some e }

/-- `MCPHost` (mcp_base.py lines 38-72): holds the registered servers in
registration order.  (Registered clients do not take part in dispatch.) -/
structure MCPHost (α : Type _) where
  servers : List (MCPServer α)

/-- `MCPHost.handle_request` (mcp_base.py lines 56-72): route to the first
registered server whose `can_handle` accepts the request; if none accepts,
answer status "error" / "No server available to handle request". -/
def MCPHost.handle_request {α : Type _} (host : MCPHost α) (now : Nat)
    (request : MCPRequest α) : MCPResponse α :=
  match host.servers.find? (fun server => server.can_handle request) with
  | some server => server.handle_request now request
  | none =>
      { request_id := request.request_id, timestamp := now, status := "error",
        data := none, error := some "No server available to handle request" }

/-! ## Banker's rounding (Python `round(x, d)`)

Python `round` rounds half to even.  (Binary floating-point representation
effects are not modelled; arithmetic is exact over `ℚ`.) -/

/-- Round a rational to the nearest integer, ties to even (Python `round`). -/
def roundHalfEven (x : ℚ) : ℤ :=
  let f : ℤ := ⌊x⌋
  let r : ℚ := x - (f : ℚ)
  if r < 1/2 then f
  else if 1/2 < r then f + 1
  else if f % 2 = 0 then f else f + 1

/-- Python `round(x, d)` over exact rationals. -/
def roundTo (d : Nat) (x : ℚ) : ℚ :=
  ((roundHalfEven (x * 10 ^ d) : ℤ) : ℚ) / 10 ^ d

/-! ## SimpleTopKAnalyzer (`src/Analyse/simple_analyzer.py`) -/

/-- A row of the products DataFrame handed to `get_top_k`.  Only `price`,
`available` and `product_type` are inspected by the analyzer;
`rest` stands for every other product column, carried through unchanged.
`available = none` models a null (NaN) cell in the `available` column. -/
structure Row where
  price : ℚ
  available : Option Bool
  product_type : String
  rest : String
deriving DecidableEq

namespace SimpleTopKAnalyzer

/-- `filtered_df['available'].fillna(True)` (simple_analyzer.py line 32),
applied row-wise: a null availability cell becomes `True`. -/
def fillAvailable (r : Row) : Row :=
  { r with available := some (r.available.getD true) }

/-- Sort key of `sort_values(['available', 'price'], ascending=[False, True])`:
availability descending (rank 0 for available), then price ascending. -/
def rowKey (r : Row) : Nat × ℚ :=
  ((if r.available.getD true then 0 else 1), r.price)

/-- The lexicographic comparison realised by the pandas multi-column sort. -/
def rowLE (a b : Row) : Prop :=
  (rowKey a).1 < (rowKey b).1 ∨ ((rowKey a).1 = (rowKey b).1 ∧ (rowKey a).2 ≤ (rowKey b).2)

instance : DecidableRel rowLE := fun a b => by
  unfold rowLE; exact inferInstance

instance : IsTotal Row rowLE where
  total a b := by
    unfold rowLE
    rcases Nat.lt_trichotomy (rowKey a).1 (rowKey b).1 with h | h | h
    · exact Or.inl (Or.inl h)
    · rcases le_total (rowKey a).2 (rowKey b).2 with h2 | h2
      · exact Or.inl (Or.inr ⟨h, h2⟩)
      · exact Or.inr (Or.inr ⟨h.symm, h2⟩)
    · exact Or.inr (Or.inl h)

instance : IsTrans Row rowLE where
  trans a b c hab hbc := by
    unfold rowLE at *
    rcases hab with h1 | ⟨h1, h1'⟩
    · rcases hbc with h2 | ⟨h2, _⟩
      · exact Or.inl (h1.trans h2)
      · exact Or.inl (h2 ▸ h1)
    · rcases hbc with h2 | ⟨h2, h2'⟩
      · exact Or.inl (h1 ▸ h2)
      · exact Or.inr ⟨h1.trans h2, h1'.trans h2'⟩

/-- The price-filter stage of `get_top_k` (simple_analyzer.py lines 21-22):
it only runs when `min_price > 0`. -/
def priceFiltered (products_df : List Row) (min_price : ℚ) : List Row :=
  if 0 < min_price
  then products_df.filter (fun r => decide (min_price ≤ r.price))
  else products_df

/-- The whole filter stage of `get_top_k` (simple_analyzer.py lines 18-25):
price filter, then the category filter, which only runs when a category is
given (`None` and `''` are falsy) and is not the UI sentinel `'Toutes'`. -/
def filteredDf (products_df : List Row) (min_price : ℚ) (category : Option String) :
    List Row :=
  match category with
  | some c => if c ≠ "" ∧ c ≠ "Toutes"
      then (priceFiltered products_df min_price).filter (fun r => c == r.product_type)
      else priceFiltered products_df min_price
  | none => priceFiltered products_df min_price

/-- `pd.Series.value_counts()` over the `product_type` column: distinct values
(first-occurrence order) with their multiplicities, sorted by count
descending.  (pandas does not fix the relative order of equal counts; this
embedding uses the stable sort on first-occurrence order.) -/
def value_counts (l : List String) : List (String × Nat) :=
  let keys := l.foldl (fun acc s => if s ∈ acc then acc else acc ++ [s]) []
  List.insertionSort (fun a b : String × Nat => b.2 ≤ a.2)
    (keys.map (fun s => (s, l.count s)))

/-- Minimum of a price column (`Series.min()`).  pandas yields NaN on an empty
series (reachable only for `k = 0`); the model returns 0 there. -/
def seriesMin : List ℚ → ℚ
  | [] => 0
  | x :: xs => xs.foldl min x

/-- Maximum of a price column (`Series.max()`); same empty-series remark. -/
def seriesMax : List ℚ → ℚ
  | [] => 0
  | x :: xs => xs.foldl max x

/-- The `stats` dictionary computed in the success branch
(simple_analyzer.py lines 39-49). -/
structure TopKStats where
  total_analyzed : Nat
  top_k_count : Nat
  avg_price : ℚ
  availability_rate : ℚ
  top_categories : List (String × Nat)
  price_min : ℚ
  price_max : ℚ
deriving DecidableEq

/-- The result dictionary of `get_top_k`.  `stats = none` models the empty
stats dict `{}`; `success` models the presence of `'success': True`
(an absent key reads as falsy through `.get('success')`). -/
structure TopKResult where
  top_products : List Row
  stats : Option TopKStats
  error : Option String
  success : Bool
deriving DecidableEq

/-- `SimpleTopKAnalyzer.get_top_k` (simple_analyzer.py lines 12-62).
The `try/except` around the sort/stats block can only fire in Python for
malformed frames (missing columns) or the `k = 0` division; rows here are
well-typed and the `k = 0` division is exact `ℚ` division (`0/0 = 0` instead
of NaN), so the except-branch is unreachable in the model. -/
def get_top_k (products_df : List Row) (k : Nat) (min_price : ℚ)
    (category : Option String) : TopKResult :=
  if products_df.isEmpty then
    { top_products := [], stats := none,
      error := some "Aucun produit à analyser", success := false }
  else
    let filtered_df := filteredDf products_df min_price category
    if filtered_df.isEmpty then
      { top_products := [], stats := none,
        error := some "Aucun produit après filtrage", success := false }
    else
      let filled := filtered_df.map fillAvailable
      let sorted_df := List.insertionSort rowLE filled
      let top_k := sorted_df.take k
      let stats : TopKStats :=
        { total_analyzed := filtered_df.length
          top_k_count := top_k.length
          avg_price := roundTo 2 ((top_k.map Row.price).sum / (top_k.length : ℚ))
          availability_rate :=
            roundTo 1 (((top_k.countP (fun r => r.available.getD false)) : ℚ)
              / (top_k.length : ℚ) * 100)
          top_categories := (value_counts (top_k.map Row.product_type)).take 3
          price_min := seriesMin (top_k.map Row.price)
          price_max := seriesMax (top_k.map Row.price) }
      { top_products := top_k, stats := some stats, error := none, success := true }

end SimpleTopKAnalyzer

/-! ## ShopifyAgent (`src/agents/ShopifyAgent.py`)

`scrape_products` (lines 257-418) paginates `/products.json` and turns each
raw listing into a `product_data` dict.  Network fetching (`_make_request`
with its retry loop) is abstracted as an oracle `fetch : page ↦ Option (List
RawShopifyProduct)`; `none` models a fetch that failed after retries or a
non-200 status (both of which `break` the pagination loop).  A page whose
body fails to JSON-decode (the `json.JSONDecodeError` branch, which skips to
the next page) is outside this model: the fetch sequences quantified over
here deliver well-formed JSON.  HTML stripping via BeautifulSoup is
abstracted as a `stripHtml` parameter. -/

/-- A variant sub-record of a raw Shopify listing, restricted to the keys
read by `scrape_products` (lines 306-317).  `price = none` models a
`variants[i]['price']` value on which `float(...)` raises; likewise
`inventory_quantity = none` for `int(...)`.  (An absent key reads the Python
default `0`, i.e. `some 0`.)  `available` is the truthiness of
`variant.get('available', False)`. -/
structure ShopifyVariant where
  price : Option ℚ
  inventory_quantity : Option Int
  available : Bool
deriving DecidableEq

/-- A raw product entry of a `/products.json` page, restricted to the keys
read by `scrape_products` (lines 292-352).  `images` holds the `src` of each
image; `collections` holds `(title, id)` of each collection entry. -/
structure RawShopifyProduct where
  id : String
  title : String
  handle : String
  body_html : String
  images : List String
  variants : List ShopifyVariant
  product_type : String
  vendor : String
  tags : List String
  created_at : String
  updated_at : String
  published_at : String
  options : List String
  collections : List (String × String)
deriving DecidableEq

/-- The `product_data` dict built for each raw listing
(ShopifyAgent.py lines 319-352). -/
structure ShopifyProductData where
  id : String
  title : String
  product_url : String
  handle : String
  price : ℚ
  max_price : ℚ
  currency : String
  available : Bool
  total_inventory : Int
  description : String
  short_description : String
  product_type : String
  vendor : String
  tags : List String
  has_image : Bool
  image_url : String
  image_count : Nat
  created_at : String
  updated_at : String
  published_at : String
  variant_count : Nat
  options : List String
  store_name : String
  store_domain : String
  categories : List String
  collection_ids : List String
deriving DecidableEq

namespace ShopifyAgent

/-- Accumulator of the per-variant loop (lines 301-317):
`(min_price, max_price, total_inventory, is_available)`, with
`min_price = none` for the initial `float('inf')`. -/
def variantStep (st : Option ℚ × ℚ × Int × Bool) (v : ShopifyVariant) :
    Option ℚ × ℚ × Int × Bool :=
  match v.price with
  | none => st
  | some p =>
    let mp : Option ℚ := match st.1 with
      | none => some p
      | some m => some (min m p)
    let mx : ℚ := max st.2.1 p
    match v.inventory_quantity with
    | none => (mp, mx, st.2.2.1, st.2.2.2)
    | some q => (mp, mx, st.2.2.1 + q, st.2.2.2 || v.available)

/-- The whole variant scan of one listing, from the initial state
`(inf, 0, 0, False)`.  A variant whose price fails to parse is skipped
entirely; one whose inventory fails to parse still contributes its price
(the `try` body has already run the min/max updates at that point). -/
def scanVariants (variants : List ShopifyVariant) : Option ℚ × ℚ × Int × Bool :=
  variants.foldl variantStep (none, 0, 0, false)

/-- Static context of one agent: site URL, extracted store info, and the
BeautifulSoup `get_text` HTML-stripper (abstracted). -/
structure AgentCtx where
  site_url : String
  store_name : String
  store_domain : String
  stripHtml : String → String

/-- Construction of `product_data` for one raw listing (lines 292-352). -/
def parseProduct (ctx : AgentCtx) (product : RawShopifyProduct) : ShopifyProductData :=
  let desc := ctx.stripHtml product.body_html
  let has_image := !product.images.isEmpty
  let image_url := product.images.headD ""
  let st := scanVariants product.variants
  { id := product.id
    title := product.title
    product_url := ctx.site_url ++ "/products/" ++ product.handle
    handle := product.handle
    price := (st.1).getD 0
    max_price := st.2.1
    currency := "USD"
    available := st.2.2.2
    total_inventory := st.2.2.1
    description := desc
    short_description := if product.body_html = "" then "" else product.body_html.take 200
    product_type := product.product_type
    vendor := product.vendor
    tags := product.tags
    has_image := has_image
    image_url := image_url
    image_count := product.images.length
    created_at := product.created_at
    updated_at := product.updated_at
    published_at := product.published_at
    variant_count := product.variants.length
    options := product.options
    store_name := ctx.store_name
    store_domain := ctx.store_domain
    categories := product.collections.map Prod.fst
    collection_ids := product.collections.map Prod.snd }

/-- The `while len(all_products) < limit` pagination loop (lines 269-392),
expressed over `remaining = limit - len(all_products)`.  Returns the
collected records together with the list of page numbers fetched.
A failed fetch (`none`) or an empty `products` array stops pagination after
fetching that page; a page longer than `remaining` is cut at the limit by
the in-loop `if len(all_products) >= limit: break`. -/
def scrapeLoop (fetch : Nat → Option (List RawShopifyProduct)) (ctx : AgentCtx)
    (page : Nat) (remaining : Nat) : List ShopifyProductData × List Nat :=
  match remaining with
  | 0 => ([], [])
  | r + 1 =>
    match fetch page with
    | none => ([], [page])
    | some [] => ([], [page])
    | some (q :: qs) =>
      let parsed := (q :: qs).map (parseProduct ctx)
      if r + 1 ≤ (q :: qs).length then (parsed.take (r + 1), [page])
      else
        let rest := scrapeLoop fetch ctx (page + 1) (r + 1 - (q :: qs).length)
        (parsed ++ rest.1, page :: rest.2)
termination_by remaining
decreasing_by simp; omega

/-- `ShopifyAgent.scrape_products` (lines 257-418): paginate from page 1 and
return `all_products[:limit]`, along with the trace of fetched pages. -/
def scrape_products (fetch : Nat → Option (List RawShopifyProduct)) (ctx : AgentCtx)
    (limit : Nat) : List ShopifyProductData × List Nat :=
  let res := scrapeLoop fetch ctx 1 limit
  (res.1.take limit, res.2)

/-- The records parsed from the `n` consecutive pages `page .. page+n-1` of a
fetch sequence, in page order. -/
def pageRecords (fetch : Nat → Option (List RawShopifyProduct)) (ctx : AgentCtx)
    (page n : Nat) : List ShopifyProductData :=
  ((List.range' page n).map (fun i => ((fetch i).getD []).map (parseProduct ctx))).flatten

/-- Total number of raw listings on the `n` consecutive pages starting at
`page`. -/
def pagesRawCount (fetch : Nat → Option (List RawShopifyProduct)) (page n : Nat) : Nat :=
  ((List.range' page n).map (fun i => ((fetch i).getD []).length)).sum

end ShopifyAgent

/-! ## BaseA2AAgent.normalize_product_data (`src/agents/BaseA2AAgent.py`)

`normalize_product_data` (lines 124-168) maps a raw `Dict[str, Any]` to a
normalized dict.  The value universe of the dictionaries is modelled by
`PyVal` (strings, numbers, booleans — the types the function stores and
reads).  A Python exception raised inside the function (a `TypeError` /
`AttributeError` on an ill-typed field) makes the model return `none`; the
caller `scrape_and_normalize` catches and skips such records. -/

/-- A Python value as stored in the product dictionaries. -/
inductive PyVal where
  | str (s : String)
  | num (q : ℚ)
  | bool (b : Bool)
deriving DecidableEq

/-- A Python `Dict[str, PyVal]` in insertion order (keys unique). -/
abbrev PyDict := List (String × PyVal)

/-- Python `d.get(k, default)`. -/
def pyGet (d : PyDict) (k : String) (default : PyVal) : PyVal :=
  dictGet d k default

/-- Python `k in d`. -/
def pyHasKey (d : PyDict) (k : String) : Bool :=
  (d.find? (fun p => p.1 == k)).isSome

/-- Python truthiness of a `PyVal` (`''`, `0` and `False` are falsy). -/
def isTruthy : PyVal → Bool
  | .str s => decide (s ≠ "")
  | .num q => decide (q ≠ 0)
  | .bool b => b

/-- Numeric reading of a `PyVal` where Python arithmetic/comparison against a
number would succeed (`bool` is an `int` in Python); `none` models the
`TypeError` a string would raise. -/
def asNum : PyVal → Option ℚ
  | .num q => some q
  | .bool b => some (if b then 1 else 0)
  | .str _ => none

/-- Python `len(v)`: defined on strings, a `TypeError` otherwise. -/
def pyLen : PyVal → Option Nat
  | .str s => some s.length
  | _ => none

namespace BaseA2AAgent

/-- Characters kept by `re.sub(r'[^\w\s\-\(\)\[\]]+', '', ...)`
(ASCII reading of `\w`; Python's `\w` is unicode-aware). -/
def isKeptChar (c : Char) : Bool :=
  c.isAlphanum || c == '_' || c.isWhitespace || c == '-' ||
    c == '(' || c == ')' || c == '[' || c == ']'

/-- Collapse consecutive spaces to one (the effect of `re.sub(r'\s+', ' ')`
after whitespace has been canonicalised to `' '`). -/
def squeezeSpaces : List Char → List Char
  | [] => []
  | [c] => [c]
  | c :: d :: cs =>
    if c = ' ' ∧ d = ' ' then squeezeSpaces (d :: cs) else c :: squeezeSpaces (d :: cs)

/-- Python `str.strip()`. -/
def stripChars (l : List Char) : List Char :=
  ((l.dropWhile Char.isWhitespace).reverse.dropWhile Char.isWhitespace).reverse

/-- The string transformation of `_clean_title` (lines 81-89) on an actual
string: strip, collapse whitespace runs to `' '`, delete characters outside
`[\w\s\-\(\)\[\]]`, truncate to 100 characters. -/
def cleanTitleStr (s : String) : String :=
  let t := stripChars s.data
  let u := squeezeSpaces (t.map (fun c => if c.isWhitespace then ' ' else c))
  String.mk ((u.filter isKeptChar).take 100)

/-- `_clean_title` (lines 81-89): falsy input returns `""`; a truthy
non-string raises (`.strip()` on a non-string). -/
def clean_title (v : PyVal) : Option String :=
  if isTruthy v = false then some ""
  else match v with
    | .str s => some (cleanTitleStr s)
    | _ => none

/-- Digit run to a natural number. -/
def digitsToNat (l : List Char) : Nat :=
  l.foldl (fun a c => 10 * a + (c.toNat - 48)) 0

/-- The string branch of `_parse_price` (lines 96-100): drop commas, then
`re.search(r'[\d,]+\.?\d*', ...)` keeps the first digit run with an optional
fractional part; `none` when no digit occurs. -/
def parsePriceStr (s : String) : Option ℚ :=
  let cs := s.data.filter (fun c => c ≠ ',')
  match cs.dropWhile (fun c => !c.isDigit) with
  | [] => none
  | rest =>
    let ip := rest.takeWhile Char.isDigit
    match rest.dropWhile Char.isDigit with
    | '.' :: r3 =>
      let fp := r3.takeWhile Char.isDigit
      some ((digitsToNat ip : ℚ) + (digitsToNat fp : ℚ) / (10 : ℚ) ^ fp.length)
    | _ => some (digitsToNat ip)

/-- `_parse_price` (lines 91-102): numbers pass through (`bool` is an `int`),
strings are searched for a first number, anything else gives `0.0`. -/
def parse_price : PyVal → ℚ
  | .num q => q
  | .bool b => if b then 1 else 0
  | .str s => match parsePriceStr s with
    | some q => q
    | none => 0

/-- `_categorize_price` (lines 173-184). -/
def categorize_price (price : ℚ) : String :=
  if price = 0 then "free"
  else if price < 20 then "low"
  else if price < 100 then "medium"
  else if price < 500 then "high"
  else "premium"

/-- `_categorize_rating` (lines 186-199), after the numeric reading of the
rating (a string rating raises in the comparison). -/
def categorize_rating (rating : ℚ) : String :=
  if (9/2 : ℚ) ≤ rating then "excellent"
  else if (4 : ℚ) ≤ rating then "very_good"
  else if (3 : ℚ) ≤ rating then "good"
  else if (2 : ℚ) ≤ rating then "fair"
  else if 0 < rating then "poor"
  else "no_rating"

/-- Ambient parameters of one normalization call: the regex extraction of
`_extract_rating` on non-falsy text (its float parsing may raise, hence
`Option`), the real-valued `rc ** 0.3` of the popularity score (float power,
not expressible over `ℚ`), the `datetime.now().isoformat()` timestamp, and
the agent's platform tag and site URL. -/
structure NormEnv where
  extract_rating_ne : String → Option (ℚ × Nat)
  rpow03 : ℚ → ℚ
  now : String
  platform : String
  site_url : String

/-- `_extract_rating` (lines 104-122): falsy text short-circuits to `(0, 0)`;
a truthy non-string raises at `.lower()`. -/
def extract_rating (env : NormEnv) (v : PyVal) : Option (ℚ × Nat) :=
  if isTruthy v = false then some (0, 0)
  else match v with
    | .str s => env.extract_rating_ne s
    | _ => none

/-- `_calculate_popularity_score` (lines 204-227), after numeric readings of
rating and review count. -/
def calculate_popularity_score (env : NormEnv) (rating rc : ℚ)
    (availability : PyVal) (description_length : Nat) (has_image : Bool) : ℚ :=
  let s1 : ℚ := rating * 10
  let s2 : ℚ := s1 + (if 0 < rc then min 20 (5 * env.rpow03 rc) else 0)
  let s3 : ℚ := s2 + (if isTruthy availability then 5 else 0)
  let s4 : ℚ := s3 + (if 100 < description_length then 3 else 0)
  let s5 : ℚ := s4 + (if has_image then 2 else 0)
  roundTo 2 s5

/-- The fields computed by one successful `normalize_product_data` run, in
the order the output dict stores them. -/
structure NormRec where
  id : PyVal
  title : String
  price : ℚ
  rating : PyVal
  review_count : PyVal
  availability : PyVal
  description_length : Nat
  vendor : PyVal
  category : PyVal
  image_url : PyVal
  product_url : PyVal
  has_image : Bool
  has_description : Bool
  title_length : Nat
  price_category : String
  rating_category : String
  popularity_score : ℚ
deriving DecidableEq

/-- Field computation of `normalize_product_data` (lines 124-168); `none`
models a raised exception (caught and skipped by `scrape_and_normalize`). -/
def normFields (env : NormEnv) (raw : PyDict) : Option NormRec :=
  (extract_rating env (pyGet raw "rating_text" (.str ""))).bind fun rr =>
    let rating : PyVal :=
      if pyHasKey raw "rating" then pyGet raw "rating" (.str "") else .num rr.1
    let review_count : PyVal :=
      if pyHasKey raw "review_count" then pyGet raw "review_count" (.str "")
      else .num (rr.2 : ℚ)
    (clean_title (pyGet raw "title" (.str ""))).bind fun title =>
      let price := parse_price (pyGet raw "price" (.num 0))
      let availability := pyGet raw "available" (.bool true)
      (pyLen (pyGet raw "description" (.str ""))).bind fun description_length =>
        let vendor := pyGet raw "vendor" (.str "Unknown")
        let category := pyGet raw "product_type" (pyGet raw "category" (.str "Other"))
        let image_url := pyGet raw "image_url" (.str "")
        let product_url := pyGet raw "url" (.str "")
        let has_image := isTruthy image_url
        (asNum rating).bind fun ratingNum =>
          (asNum review_count).bind fun rcNum =>
            some { id := pyGet raw "id" (.str "")
                   title := title
                   price := price
                   rating := rating
                   review_count := review_count
                   availability := availability
                   description_length := description_length
                   vendor := vendor
                   category := category
                   image_url := image_url
                   product_url := product_url
                   has_image := has_image
                   has_description := decide (0 < description_length)
                   title_length := title.length
                   price_category := categorize_price price
                   rating_category := categorize_rating ratingNum
                   popularity_score := calculate_popularity_score env ratingNum rcNum
                     availability description_length has_image }

/-- The normalized output dict, keys in insertion order (lines 141-166). -/
def normalizedDict (env : NormEnv) (n : NormRec) : PyDict :=
  [("id", n.id), ("title", .str n.title), ("price", .num n.price),
   ("rating", n.rating), ("review_count", n.review_count),
   ("availability", n.availability),
   ("description_length", .num (n.description_length : ℚ)),
   ("vendor", n.vendor), ("category", n.category),
   ("image_url", n.image_url), ("product_url", n.product_url),
   ("scraped_at", .str env.now), ("platform", .str env.platform),
   ("source_site", .str env.site_url),
   ("has_image", .bool n.has_image), ("has_description", .bool n.has_description),
   ("title_length", .num (n.title_length : ℚ)),
   ("price_category", .str n.price_category),
   ("rating_category", .str n.rating_category),
   ("popularity_score", .num n.popularity_score)]

/-- `BaseA2AAgent.normalize_product_data` (lines 124-168). -/
def normalize_product_data (env : NormEnv) (raw : PyDict) : Option PyDict :=
  (normFields env raw).map (normalizedDict env)

end BaseA2AAgent

/-! ## Concrete fixtures used by witnesses and counterexamples -/

/-- A server whose permission table is `{"admin": ["scrape_store"]}`
(the scenario of the spec's testable-properties section). -/
def adminPermServer : MCPServer Unit :=
  { name := "scraping"
    permissions := [("admin", ["scrape_store"])]
    process_request := fun _ => Except.ok () }

/-- A request from source `"guest"` for action `"scrape_store"`. -/
def guestRequest : MCPRequest Unit :=
  { request_id := "req1", timestamp := 0, source := "guest",
    action := "scrape_store", parameters := [], context := [] }

/-- A server whose handler raises on `"query_data"` (message `"boom"`) and
succeeds with `7` on other authorized actions. -/
def faultyServer : MCPServer Nat :=
  { name := "db"
    permissions := [("analyst", ["query_data", "get_schema"])]
    process_request := fun r =>
      if r.action = "query_data" then Except.error "boom" else Except.ok 7 }

/-- An authorized request whose processing raises. -/
def faultyRequest : MCPRequest Nat :=
  { request_id := "req2", timestamp := 0, source := "analyst",
    action := "query_data", parameters := [], context := [] }

/-- A subsequent authorized request whose processing succeeds. -/
def okRequest : MCPRequest Nat :=
  { request_id := "req3", timestamp := 0, source := "analyst",
    action := "get_schema", parameters := [], context := [] }

/-- First registered host server: cannot handle `routedRequest`. -/
def hostServer1 : MCPServer Nat :=
  { name := "one", permissions := [("x", ["a"])],
    process_request := fun _ => Except.ok 1 }

/-- Second registered host server: the first that can handle
`routedRequest`; returns `2`. -/
def hostServer2 : MCPServer Nat :=
  { name := "two", permissions := [("u", ["go"])],
    process_request := fun _ => Except.ok 2 }

/-- Third registered host server: could also handle `routedRequest` but must
not run; returns `3`. -/
def hostServer3 : MCPServer Nat :=
  { name := "three", permissions := [("u", ["go"])],
    process_request := fun _ => Except.ok 3 }

/-- A request that servers 2 and 3 can handle. -/
def routedRequest : MCPRequest Nat :=
  { request_id := "req4", timestamp := 0, source := "u", action := "go",
    parameters := [], context := [] }

/-- A request no registered server can handle. -/
def unroutedRequest : MCPRequest Nat :=
  { request_id := "req5", timestamp := 0, source := "u", action := "zz",
    parameters := [], context := [] }

/-- Fixture: a one-row batch whose single price (5) is below the filter
threshold used in the C9 scenario. -/
def c9df : List Row :=
  [{ price := 5, available := some true, product_type := "X", rest := "p1" }]

/-- Fixture batch for the filter-correctness witness. -/
def c8df : List Row :=
  [{ price := 30, available := some true, product_type := "Shoes", rest := "a" },
   { price := 10, available := some false, product_type := "Shoes", rest := "b" },
   { price := 20, available := some true, product_type := "Hats", rest := "c" },
   { price := 18, available := none, product_type := "Shoes", rest := "d" }]

/-- Fixture agent context: the HTML stripper is instantiated with the
identity. -/
def ctx0 : ShopifyAgent.AgentCtx :=
  { site_url := "https://shop.example", store_name := "Shop",
    store_domain := "shop.example", stripHtml := fun s => s }

/-- Fixture variant: price 10, inventory 3, available. -/
def variant1 : ShopifyVariant :=
  { price := some 10, inventory_quantity := some 3, available := true }

/-- Fixture variant: price 5, inventory 0, unavailable. -/
def variant2 : ShopifyVariant :=
  { price := some 5, inventory_quantity := some 0, available := false }

/-- Fixture raw listing with the single variant `variant1`. -/
def rawP1 : RawShopifyProduct :=
  { id := "1", title := "A", handle := "a", body_html := "",
    images := [], variants := [variant1], product_type := "T", vendor := "V",
    tags := [], created_at := "", updated_at := "", published_at := "",
    options := [], collections := [] }

/-- Fixture raw listing with the single variant `variant2`. -/
def rawP2 : RawShopifyProduct :=
  { id := "2", title := "B", handle := "b", body_html := "",
    images := [], variants := [variant2], product_type := "T", vendor := "V",
    tags := [], created_at := "", updated_at := "", published_at := "",
    options := [], collections := [] }

/-- Fixture fetch sequence: one listing on each of pages 1 and 2, an empty
`products` array on page 3 and beyond. -/
def c5fetch : Nat → Option (List RawShopifyProduct) := fun i =>
  if i = 1 then some [rawP1] else if i = 2 then some [rawP2] else some []

/-- Fixture raw listing with an empty `variants` array. -/
def rawNoVariants : RawShopifyProduct :=
  { id := "3", title := "C", handle := "c", body_html := "",
    images := [], variants := [], product_type := "T", vendor := "V", tags := [],
    created_at := "", updated_at := "", published_at := "", options := [],
    collections := [] }

/-- Fixture fetch sequence delivering only the variant-less listing. -/
def c7fetch : Nat → Option (List RawShopifyProduct) := fun i =>
  if i = 1 then some [rawNoVariants] else some []

/-- Fixture normalization environment with concrete stand-ins for the
regex rating extraction and the float `** 0.3` power. -/
def env0 : BaseA2AAgent.NormEnv :=
  { extract_rating_ne := fun _ => some (0, 0)
    rpow03 := fun _ => 0
    now := "2026-01-01T00:00:00"
    platform := "shopify"
    site_url := "https://shop.example" }

/-- Fixture raw record: unavailable, with a description and a product URL. -/
def c6raw : PyDict :=
  [("available", .bool false), ("description", .str "Nice!"), ("url", .str "http://x")]

/-- First-pass normalization of `c6raw` under `env0`. -/
def c6d1 : PyDict :=
  [("id", .str ""), ("title", .str ""), ("price", .num 0), ("rating", .num 0),
   ("review_count", .num 0), ("availability", .bool false),
   ("description_length", .num 5), ("vendor", .str "Unknown"),
   ("category", .str "Other"), ("image_url", .str ""),
   ("product_url", .str "http://x"), ("scraped_at", .str "2026-01-01T00:00:00"),
   ("platform", .str "shopify"), ("source_site", .str "https://shop.example"),
   ("has_image", .bool false), ("has_description", .bool true),
   ("title_length", .num 0), ("price_category", .str "free"),
   ("rating_category", .str "no_rating"), ("popularity_score", .num 0)]

/-- Second-pass normalization of `c6d1` under `env0`: availability has been
reset to `True` (earning the +5 availability bonus in the popularity score),
the description length to 0 and the product URL to the empty string. -/
def c6d2 : PyDict :=
  [("id", .str ""), ("title", .str ""), ("price", .num 0), ("rating", .num 0),
   ("review_count", .num 0), ("availability", .bool true),
   ("description_length", .num 0), ("vendor", .str "Unknown"),
   ("category", .str "Other"), ("image_url", .str ""),
   ("product_url", .str ""), ("scraped_at", .str "2026-01-01T00:00:00"),
   ("platform", .str "shopify"), ("source_site", .str "https://shop.example"),
   ("has_image", .bool false), ("has_description", .bool false),
   ("title_length", .num 0), ("price_category", .str "free"),
   ("rating_category", .str "no_rating"), ("popularity_score", .num 5)]

end SmartEcom

namespace SmartEcom

/-! ## C1, C3, C4 — router theorems -/

/-- C1: for every request whose (source, action) pair is not in the
permission table, the permission-checking dispatch returns status "error"
with message "Permission denied", and no handler code executes — the
response is the same whatever `_process_request` body the server carries. -/
theorem permission_denied_law {α : Type _} (s : MCPServer α) (now : Nat)
    (request : MCPRequest α) (h : s.can_handle request = false) :
    s.handle_request now request =
      { request_id := request.request_id, timestamp := now, status := "error",
        data := none, error := some "Permission denied" } ∧
    ∀ proc : MCPRequest α → Except String α,
      (MCPServer.mk s.name s.permissions proc).handle_request now request =
        { request_id := request.request_id, timestamp := now, status := "error",
          data := none, error := some "Permission denied" } := by
  have hmk : ∀ proc : MCPRequest α → Except String α,
      (MCPServer.mk s.name s.permissions proc).can_handle request = false := by
    intro proc
    simpa [MCPServer.can_handle] using h
  constructor
  · simp [MCPServer.handle_request, h]
  · intro proc
    simp [MCPServer.handle_request, hmk proc]

/-- C1 witness: with permissions `{"admin": ["scrape_store"]}`, a request
from "guest" for "scrape_store" is denied. -/
theorem permission_denied_law_witness :
    adminPermServer.can_handle guestRequest = false ∧
    adminPermServer.handle_request 0 guestRequest =
      { request_id := "req1", timestamp := 0, status := "error",
        data := none, error := some "Permission denied" } :=
  ⟨rfl, (permission_denied_law adminPermServer 0 guestRequest rfl).1⟩

/-- C3: a handler that raises during processing of an authorized request
yields a status-"error" response carrying the exception's message (the
exception is consumed at the router boundary — `handle_request` is total),
and the router remains usable: any later authorized request whose processing
succeeds still gets its "success" response. -/
theorem handler_fault_containment {α : Type _} (s : MCPServer α) (now : Nat)
    (request : MCPRequest α) (msg : String)
    (hc : s.can_handle request = true)
    (he : s.process_request request = Except.error msg) :
    s.handle_request now request =
      { request_id := request.request_id, timestamp := now, status := "error",
        data := none, error := some msg } ∧
    ∀ (request2 : MCPRequest α) (now2 : Nat) (v : α),
      s.can_handle request2 = true → s.process_request request2 = Except.ok v →
      s.handle_request now2 request2 =
        { request_id := request2.request_id, timestamp := now2,
          status := "success", data := some v, error := none } := by
  constructor
  · simp [MCPServer.handle_request, hc, he]
  · intro r2 n2 v hc2 hok
    simp [MCPServer.handle_request, hc2, hok]

/-- C3 witness: a concrete raising handler is wrapped into an error response
and the same server then successfully serves the next request. -/
theorem handler_fault_containment_witness :
    faultyServer.handle_request 0 faultyRequest =
      { request_id := "req2", timestamp := 0, status := "error",
        data := none, error := some "boom" } ∧
    faultyServer.handle_request 1 okRequest =
      { request_id := "req3", timestamp := 1, status := "success",
        data := some 7, error := none } :=
  ⟨(handler_fault_containment faultyServer 0 faultyRequest "boom" rfl rfl).1,
   (handler_fault_containment faultyServer 0 faultyRequest "boom" rfl rfl).2
     okRequest 1 7 rfl rfl⟩

/-- C4: the coordinating host dispatches to exactly the first registered
server whose `can_handle` accepts the request (the result is that server's
response, independent of every later server), and answers "No server
available to handle request" when no registered server accepts. -/
theorem router_first_match {α : Type _} (servers : List (MCPServer α))
    (now : Nat) (request : MCPRequest α) :
    (∀ pre s post, servers = pre ++ s :: post →
      (∀ s2 ∈ pre, s2.can_handle request = false) →
      s.can_handle request = true →
      (MCPHost.mk servers).handle_request now request =
        s.handle_request now request) ∧
    ((∀ s2 ∈ servers, s2.can_handle request = false) →
      (MCPHost.mk servers).handle_request now request =
        { request_id := request.request_id, timestamp := now, status := "error",
          data := none, error := some "No server available to handle request" }) := by
  constructor
  · intro pre s post hsplit hpre hs
    have hfind : servers.find? (fun sv => sv.can_handle request) = some s := by
      subst hsplit
      induction pre with
      | nil => exact List.find?_cons_of_pos _ hs
      | cons a l ih =>
        rw [List.cons_append, List.find?_cons_of_neg]
        · exact ih (fun s2 h2 => hpre s2 (List.mem_cons_of_mem a h2))
        · simpa using hpre a (List.mem_cons_self a l)
    simp [MCPHost.handle_request, hfind]
  · intro hnone
    have hfind : servers.find? (fun sv => sv.can_handle request) = none := by
      rw [List.find?_eq_none]
      intro x hx
      simpa using hnone x hx
    simp [MCPHost.handle_request, hfind]

/-- C4 witness: with three registered servers of which the second and third
could both serve the request, the second (first match) answers — its data
`2` — and an unhandled action gets the no-server error. -/
theorem router_first_match_witness :
    (MCPHost.mk [hostServer1, hostServer2, hostServer3]).handle_request 0 routedRequest =
      { request_id := "req4", timestamp := 0, status := "success",
        data := some 2, error := none } ∧
    (MCPHost.mk [hostServer1, hostServer2, hostServer3]).handle_request 0 unroutedRequest =
      { request_id := "req5", timestamp := 0, status := "error",
        data := none, error := some "No server available to handle request" } := by
  have h1 := (router_first_match [hostServer1, hostServer2, hostServer3] 0 routedRequest).1
    [hostServer1] hostServer2 [hostServer3] rfl
    (by intro s2 h2; rw [List.mem_singleton] at h2; subst h2; rfl) rfl
  have h2 := (router_first_match [hostServer1, hostServer2, hostServer3] 0 unroutedRequest).2
    (by intro s2 h2; fin_cases h2 <;> rfl)
  exact ⟨h1.trans rfl, h2⟩

/-! ## Analyzer lemmas -/

namespace SimpleTopKAnalyzer

theorem rowLE_of_rowKey_eq {a b : Row} (h : rowKey a = rowKey b) : rowLE a b := by
  unfold rowLE
  exact Or.inr ⟨by rw [h], by rw [h]⟩

theorem rowKey_ne_of_not_rowLE {a b : Row} (h : ¬ rowLE a b) : rowKey a ≠ rowKey b :=
  fun he => h (rowLE_of_rowKey_eq he)

/-- Inserting `a` never disturbs the relative order of equal-key rows:
its key class gains `a` at the front, every other key class is unchanged. -/
theorem filter_key_orderedInsert (a : Row) (l : List Row) (kc : Nat × ℚ) :
    (List.orderedInsert rowLE a l).filter (fun r => decide (rowKey r = kc)) =
      if rowKey a = kc
      then a :: l.filter (fun r => decide (rowKey r = kc))
      else l.filter (fun r => decide (rowKey r = kc)) := by
  induction l with
  | nil =>
    by_cases h : rowKey a = kc <;> simp [List.orderedInsert, List.filter, h]
  | cons b l ih =>
    by_cases hle : rowLE a b
    · rw [List.orderedInsert_of_le rowLE l hle]
      by_cases ha : rowKey a = kc <;> simp [List.filter_cons, ha]
    · have hne : rowKey a ≠ rowKey b := rowKey_ne_of_not_rowLE hle
      have : List.orderedInsert rowLE a (b :: l) = b :: List.orderedInsert rowLE a l := by
        simp [List.orderedInsert, hle]
      rw [this]
      by_cases ha : rowKey a = kc
      · have hb : rowKey b ≠ kc := fun hbk => hne (ha.trans hbk.symm)
        simp [List.filter_cons, ha, hb, ih]
      · by_cases hb : rowKey b = kc <;> simp [List.filter_cons, ha, hb, ih]

/-- Stability of the embedded pandas sort: each key class of the output is
the key class of the input, in input order. -/
theorem filter_key_insertionSort (l : List Row) (kc : Nat × ℚ) :
    (List.insertionSort rowLE l).filter (fun r => decide (rowKey r = kc)) =
      l.filter (fun r => decide (rowKey r = kc)) := by
  induction l with
  | nil => rfl
  | cons a l ih =>
    rw [List.insertionSort, filter_key_orderedInsert]
    by_cases h : rowKey a = kc <;> simp [List.filter_cons, h, ih]

theorem filteredDf_some (products_df : List Row) (min_price : ℚ) (c : String) :
    filteredDf products_df min_price (some c) =
      if c ≠ "" ∧ c ≠ "Toutes"
      then (priceFiltered products_df min_price).filter (fun r => c == r.product_type)
      else priceFiltered products_df min_price := rfl

theorem filteredDf_none (products_df : List Row) (min_price : ℚ) :
    filteredDf products_df min_price none = priceFiltered products_df min_price := rfl

theorem priceFiltered_nil (min_price : ℚ) : priceFiltered [] min_price = [] := by
  unfold priceFiltered
  split_ifs <;> simp

theorem filteredDf_nil (min_price : ℚ) (category : Option String) :
    filteredDf [] min_price category = [] := by
  cases category with
  | none => rw [filteredDf_none, priceFiltered_nil]
  | some c =>
    rw [filteredDf_some]
    split_ifs <;> simp [priceFiltered_nil]

/-- `isEmpty` is invariant under `map`. -/
theorem isEmpty_map {α β : Type _} (f : α → β) (l : List α) :
    (l.map f).isEmpty = l.isEmpty := by
  cases l <;> rfl

/-- `fillna` commutes with the price filter (it does not touch prices). -/
theorem priceFiltered_map_fill (products_df : List Row) (min_price : ℚ) :
    priceFiltered (products_df.map fillAvailable) min_price =
      (priceFiltered products_df min_price).map fillAvailable := by
  unfold priceFiltered
  split_ifs
  · rw [List.filter_map]; rfl
  · rfl

/-- `fillna` commutes with the whole filter stage. -/
theorem filteredDf_map_fill (products_df : List Row) (min_price : ℚ)
    (category : Option String) :
    filteredDf (products_df.map fillAvailable) min_price category =
      (filteredDf products_df min_price category).map fillAvailable := by
  cases category with
  | none => rw [filteredDf_none, filteredDf_none, priceFiltered_map_fill]
  | some c =>
    rw [filteredDf_some, filteredDf_some]
    split_ifs
    · rw [priceFiltered_map_fill, List.filter_map]; rfl
    · rw [priceFiltered_map_fill]

/-- The product list of every `get_top_k` result, across all three branches:
filter, fill nulls, stable sort, truncate. -/
theorem top_products_eq (products_df : List Row) (k : Nat) (min_price : ℚ)
    (category : Option String) :
    (get_top_k products_df k min_price category).top_products =
      (List.insertionSort rowLE
        ((filteredDf products_df min_price category).map fillAvailable)).take k := by
  unfold get_top_k
  by_cases h0 : products_df.isEmpty
  · rw [List.isEmpty_iff] at h0
    subst h0
    simp [filteredDf_nil]
  · simp only [h0, Bool.false_eq_true, if_false]
    by_cases h1 : (filteredDf products_df min_price category).isEmpty
    · rw [List.isEmpty_iff] at h1
      simp [h1]
    · simp [h1]

/-- Every returned product is the null-filled version of a record that
survived the filter stage. -/
theorem mem_top_products {products_df : List Row} {k : Nat} {min_price : ℚ}
    {category : Option String} {r : Row}
    (hr : r ∈ (get_top_k products_df k min_price category).top_products) :
    ∃ s ∈ filteredDf products_df min_price category, r = fillAvailable s := by
  rw [top_products_eq] at hr
  have h1 := List.take_subset k _ hr
  rw [List.mem_insertionSort] at h1
  obtain ⟨s, hs, hfill⟩ := List.mem_map.mp h1
  exact ⟨s, hs, hfill.symm⟩

end SimpleTopKAnalyzer

/-! ## C2, C8, C9, C10 — analyzer theorems -/

open SimpleTopKAnalyzer in
/-- C2: the returned product list has length `min k |filtered|`, is ordered
by availability descending then price ascending (`rowLE`), the sort is
stable (each `(available, price)` key class appears in original input
order), and the truncation keeps, within each key class, a prefix of that
input order; `k` beyond the filtered count simply returns everything. -/
theorem topk_length_order_stability (products_df : List Row) (k : Nat)
    (min_price : ℚ) (category : Option String) :
    (get_top_k products_df k min_price category).top_products.length =
      min k (filteredDf products_df min_price category).length ∧
    (get_top_k products_df k min_price category).top_products.Pairwise rowLE ∧
    (∀ kc : Nat × ℚ,
      (List.insertionSort rowLE
          ((filteredDf products_df min_price category).map fillAvailable)).filter
          (fun r => decide (rowKey r = kc)) =
        ((filteredDf products_df min_price category).map fillAvailable).filter
          (fun r => decide (rowKey r = kc))) ∧
    (∀ kc : Nat × ℚ,
      (get_top_k products_df k min_price category).top_products.filter
          (fun r => decide (rowKey r = kc)) <+:
        ((filteredDf products_df min_price category).map fillAvailable).filter
          (fun r => decide (rowKey r = kc))) := by
  refine ⟨?_, ?_, ?_, ?_⟩
  · rw [top_products_eq, List.length_take, List.length_insertionSort, List.length_map]
  · rw [top_products_eq]
    exact (List.sorted_insertionSort rowLE _).sublist (List.take_sublist _ _)
  · exact fun kc => filter_key_insertionSort _ kc
  · intro kc
    rw [top_products_eq, ← filter_key_insertionSort
      ((filteredDf products_df min_price category).map fillAvailable) kc]
    exact (List.take_prefix k _).filter _

open SimpleTopKAnalyzer in
/-- C8: over a batch of products with nonnegative prices (the NormalizedProduct
price invariant) and a genuinely given category (not empty, not the UI
sentinel "Toutes"), no returned record has price below `min_price` and none
has a different `product_type`. -/
theorem topk_filter_correctness (products_df : List Row) (k : Nat)
    (min_price : ℚ) (category : Option String) (c : String)
    (hp : ∀ r ∈ products_df, 0 ≤ r.price)
    (hcat : category = some c) (hc1 : c ≠ "") (hc2 : c ≠ "Toutes") :
    (get_top_k products_df k min_price category).top_products.all
      (fun r => !decide (r.price < min_price) && (r.product_type == c)) = true := by
  rw [List.all_eq_true]
  intro r hr
  obtain ⟨s, hs, hfill⟩ := mem_top_products hr
  have hprice : r.price = s.price := by rw [hfill]; rfl
  have htype : r.product_type = s.product_type := by rw [hfill]; rfl
  subst hcat
  rw [filteredDf_some, if_pos ⟨hc1, hc2⟩] at hs
  have hmem2 := List.mem_filter.mp hs
  have hctype : c = s.product_type := by
    have := hmem2.2
    exact eq_of_beq this
  have hs1 := hmem2.1
  have hge : min_price ≤ s.price := by
    unfold priceFiltered at hs1
    by_cases hmp : 0 < min_price
    · rw [if_pos hmp] at hs1
      have := (List.mem_filter.mp hs1).2
      exact of_decide_eq_true this
    · rw [if_neg hmp] at hs1
      exact le_trans (le_of_not_lt hmp) (hp s hs1)
  simp only [Bool.and_eq_true, Bool.not_eq_true', decide_eq_false_iff_not, beq_iff_eq]
  exact ⟨by rw [hprice]; exact not_lt_of_le hge, by rw [htype]; exact hctype.symm⟩

open SimpleTopKAnalyzer in
/-- C8 witness: the filter guarantees evaluated on a concrete batch. -/
theorem topk_filter_correctness_witness :
    (get_top_k c8df 2 15 (some "Shoes")).top_products.all
      (fun r => !decide (r.price < 15) && (r.product_type == "Shoes")) = true :=
  topk_filter_correctness c8df 2 15 (some "Shoes") "Shoes" (by decide) rfl
    (by decide) (by decide)

open SimpleTopKAnalyzer in
/-- C9 counterexample: on a nonempty batch that filters to nothing, the
result is *not* free of an error indication — its `error` field is set and
no success flag is present, exactly like the failure branches. -/
theorem topk_no_data_counterexample :
    ¬ ((get_top_k c9df 3 10 none).error = none ∨
       (get_top_k c9df 3 10 none).success = true) := by decide

open SimpleTopKAnalyzer in
/-- C9 amended: filtering a nonempty batch down to nothing returns normally
(no exception — the function is total) with an empty product list and empty
stats, but the result carries the distinguishing no-data message
"Aucun produit après filtrage" in its `error` field and no success flag. -/
theorem topk_empty_filter_result (products_df : List Row) (k : Nat)
    (min_price : ℚ) (category : Option String)
    (h0 : products_df ≠ [])
    (h : filteredDf products_df min_price category = []) :
    get_top_k products_df k min_price category =
      { top_products := [], stats := none,
        error := some "Aucun produit après filtrage", success := false } := by
  unfold get_top_k
  rw [if_neg (by simpa [List.isEmpty_iff] using h0)]
  simp [h]

open SimpleTopKAnalyzer in
/-- C9 witness: the amended result at the concrete fixture. -/
theorem topk_empty_filter_result_witness :
    get_top_k c9df 3 10 none =
      { top_products := [], stats := none,
        error := some "Aucun produit après filtrage", success := false } :=
  topk_empty_filter_result c9df 3 10 none (by decide) (by decide)

/-! ## Pagination lemmas (`ShopifyAgent.scrape_products`) -/

namespace ShopifyAgent

/-- Behaviour of the pagination loop on a fetch sequence with `n` nonempty
pages from `page` on, an empty `products` array right after them, and a
record budget larger than what those pages hold: it returns all their parsed
records and fetches exactly pages `page .. page+n`. -/
theorem scrapeLoop_run (fetch : Nat → Option (List RawShopifyProduct)) (ctx : AgentCtx) :
    ∀ (n page remaining : Nat),
      (∀ i, i < n → ∃ q qs, fetch (page + i) = some (q :: qs)) →
      fetch (page + n) = some [] →
      pagesRawCount fetch page n < remaining →
      scrapeLoop fetch ctx page remaining =
        (pageRecords fetch ctx page n, List.range' page (n + 1)) := by
  intro n
  induction n with
  | zero =>
    intro page remaining _ hempty hlt
    have h0 : fetch page = some [] := by simpa using hempty
    obtain ⟨r, rfl⟩ : ∃ r, remaining = r + 1 := ⟨remaining - 1, by omega⟩
    rw [scrapeLoop]
    simp [h0, pageRecords, List.range'_succ]
  | succ n ih =>
    intro page remaining hpages hempty hlt
    obtain ⟨q, qs, hq⟩ := hpages 0 (Nat.succ_pos n)
    have hq' : fetch page = some (q :: qs) := by simpa using hq
    have hcount : pagesRawCount fetch page (n + 1) =
        (q :: qs).length + pagesRawCount fetch (page + 1) n := by
      unfold pagesRawCount
      rw [List.range'_succ]
      simp [hq']
    obtain ⟨r, rfl⟩ : ∃ r, remaining = r + 1 := ⟨remaining - 1, by omega⟩
    rw [scrapeLoop]
    simp only [hq']
    have hlen : ¬ (r + 1 ≤ (q :: qs).length) := by
      have h1 : (q :: qs).length ≤ pagesRawCount fetch page (n + 1) := by
        rw [hcount]; omega
      omega
    rw [if_neg hlen]
    have ihres := ih (page + 1) (r + 1 - (q :: qs).length)
      (fun i hi => by
        have := hpages (i + 1) (by omega)
        simpa [show page + (i + 1) = page + 1 + i by omega] using this)
      (by simpa [show page + (n + 1) = page + 1 + n by omega] using hempty)
      (by rw [hcount] at hlt; omega)
    rw [ihres]
    refine Prod.ext ?_ ?_
    · show (q :: qs).map (parseProduct ctx) ++ pageRecords fetch ctx (page + 1) n =
        pageRecords fetch ctx page (n + 1)
      unfold pageRecords
      rw [List.range'_succ]
      simp [hq']
    · show page :: List.range' (page + 1) (n + 1) = List.range' page (n + 1 + 1)
      conv_rhs => rw [List.range'_succ]

/-- Every record the pagination loop returns is the parse of some raw
listing delivered by the fetch sequence. -/
theorem scrapeLoop_mem (fetch : Nat → Option (List RawShopifyProduct)) (ctx : AgentCtx) :
    ∀ (remaining page : Nat) (r : ShopifyProductData),
      r ∈ (scrapeLoop fetch ctx page remaining).1 →
      ∃ raw, r = parseProduct ctx raw := by
  intro remaining
  induction remaining using Nat.strong_induction_on with
  | _ remaining ih =>
    intro page r hr
    rcases remaining with _ | rm
    · rw [scrapeLoop] at hr
      simp at hr
    · rw [scrapeLoop] at hr
      rcases hf : fetch page with _ | ps
      · rw [hf] at hr; simp at hr
      · rcases ps with _ | ⟨p1, ptl⟩
        · rw [hf] at hr; simp at hr
        · rw [hf] at hr
          dsimp only at hr
          by_cases hl : rm + 1 ≤ (p1 :: ptl).length
          · rw [if_pos hl] at hr
            have := List.take_subset (rm + 1) _ hr
            obtain ⟨raw, _, hraw⟩ := List.mem_map.mp this
            exact ⟨raw, hraw.symm⟩
          · rw [if_neg hl] at hr
            rcases List.mem_append.mp hr with hmem | hmem
            · obtain ⟨raw, _, hraw⟩ := List.mem_map.mp hmem
              exact ⟨raw, hraw.symm⟩
            · exact ih (rm + 1 - (p1 :: ptl).length) (by simp; omega) (page + 1) r hmem

end ShopifyAgent

open ShopifyAgent in
/-- C5: if the listing endpoint serves nonempty well-formed pages
`1 .. N-1`, an empty `products` array on page `N`, and the limit has not
been reached by pages `1 .. N-1`, then `scrape_products` returns exactly the
records parsed from pages `1` through `N-1`, fetches exactly pages
`1 .. N`, and never fetches page `N+1`. -/
theorem pagination_termination (fetch : Nat → Option (List RawShopifyProduct))
    (ctx : AgentCtx) (N limit : Nat)
    (hN : 1 ≤ N)
    (hpages : ∀ i, 1 ≤ i → i < N → ∃ q qs, fetch i = some (q :: qs))
    (hempty : fetch N = some [])
    (hlimit : pagesRawCount fetch 1 (N - 1) < limit) :
    scrape_products fetch ctx limit =
      (pageRecords fetch ctx 1 (N - 1), List.range' 1 N) ∧
    N + 1 ∉ (scrape_products fetch ctx limit).2 := by
  have hrun := scrapeLoop_run fetch ctx (N - 1) 1 limit
    (fun i hi => by
      have := hpages (1 + i) (by omega) (by omega)
      exact this)
    (by simpa [show 1 + (N - 1) = N by omega] using hempty)
    hlimit
  rw [show N - 1 + 1 = N by omega] at hrun
  have hlen : (pageRecords fetch ctx 1 (N - 1)).length = pagesRawCount fetch 1 (N - 1) := by
    unfold pageRecords pagesRawCount
    simp [List.length_flatten, List.map_map, Function.comp_def]
  have hmain : scrape_products fetch ctx limit =
      (pageRecords fetch ctx 1 (N - 1), List.range' 1 N) := by
    unfold scrape_products
    rw [hrun]
    simp only
    rw [List.take_of_length_le (by rw [hlen]; omega)]
  refine ⟨hmain, ?_⟩
  rw [hmain]
  intro hmem
  rw [List.mem_range'_1] at hmem
  omega

open ShopifyAgent in
/-- C5 witness: a concrete fetch sequence with one listing on each of pages
1 and 2, empty on page 3: both records come back, pages 1-3 are fetched,
page 4 is not. -/
theorem pagination_termination_witness :
    scrape_products c5fetch ctx0 10 =
      ([parseProduct ctx0 rawP1, parseProduct ctx0 rawP2], [1, 2, 3]) ∧
    4 ∉ (scrape_products c5fetch ctx0 10).2 := by
  have h := pagination_termination c5fetch ctx0 3 10 (by omega)
    (by
      intro i h1 h2
      interval_cases i
      · exact ⟨rawP1, [], rfl⟩
      · exact ⟨rawP2, [], rfl⟩)
    rfl (by decide)
  exact ⟨h.1.trans rfl, h.2⟩

/-! ## Variant-scan lemmas (`ShopifyAgent` listing parse) -/

namespace ShopifyAgent

/-- One step of the variant scan preserves `min_price ≤ max_price` (reading
the `float('inf')` initial minimum as the final `0.0` price fallback). -/
theorem variantStep_inv (st : Option ℚ × ℚ × Int × Bool) (v : ShopifyVariant)
    (h : st.1.getD 0 ≤ st.2.1) :
    (variantStep st v).1.getD 0 ≤ (variantStep st v).2.1 := by
  rcases hp : v.price with _ | p
  · simpa [variantStep, hp] using h
  · rcases hst : st.1 with _ | m
    · rcases hq : v.inventory_quantity with _ | q
      · simp [variantStep, hp, hst, hq]
      · simp [variantStep, hp, hst, hq]
    · have h2 : m ≤ st.2.1 := by simpa [hst] using h
      have h3 : min m p ≤ max st.2.1 p :=
        le_trans (min_le_left _ _) (le_trans h2 (le_max_left _ _))
      rcases hq : v.inventory_quantity with _ | q
      · simp only [variantStep, hp, hq, hst]
        exact h3
      · simp only [variantStep, hp, hq, hst]
        exact h3

/-- The variant scan preserves `min_price ≤ max_price` along the fold. -/
theorem variantFold_inv (vs : List ShopifyVariant) :
    ∀ st : Option ℚ × ℚ × Int × Bool, st.1.getD 0 ≤ st.2.1 →
      (vs.foldl variantStep st).1.getD 0 ≤ (vs.foldl variantStep st).2.1 := by
  induction vs with
  | nil => intro st h; simpa using h
  | cons v vs ih =>
    intro st h
    rw [List.foldl_cons]
    exact ih _ (variantStep_inv st v h)

/-- On variants whose price and inventory both parse, the scan computes the
running minimum and maximum of the prices, the inventory sum and the
availability disjunction. -/
theorem variantFold_wf (vs : List ShopifyVariant) :
    ∀ (m M : ℚ) (I : Int) (A : Bool),
      (∀ v ∈ vs, (∃ p, v.price = some p) ∧ (∃ q, v.inventory_quantity = some q)) →
      vs.foldl variantStep (some m, M, I, A) =
        (some (vs.foldl (fun x v => min x (v.price.getD 0)) m),
         vs.foldl (fun x v => max x (v.price.getD 0)) M,
         I + (vs.map (fun v => v.inventory_quantity.getD 0)).sum,
         A || vs.any (fun v => v.available)) := by
  induction vs with
  | nil => intro m M I A _; simp
  | cons v vs ih =>
    intro m M I A hw
    obtain ⟨⟨p, hp⟩, ⟨q, hq⟩⟩ := hw v (List.mem_cons_self _ _)
    have hstep : variantStep (some m, M, I, A) v =
        (some (min m p), max M p, I + q, A || v.available) := by
      simp [variantStep, hp, hq]
    rw [List.foldl_cons, hstep,
      ih _ _ _ _ (fun w hww => hw w (List.mem_cons_of_mem _ hww))]
    simp [hp, hq, add_assoc, Bool.or_assoc]

end ShopifyAgent

open ShopifyAgent in
/-- C7 amended: every record produced by `scrape_products` is the parse of a
raw listing; every parsed record satisfies `price ≤ max_price`
unconditionally and has `variant_count` equal to the number of variants (so
`variant_count ≥ 1` holds exactly for listings with at least one variant,
not for all — see the counterexample); and on listings with at least one
variant, all of whose variants carry a parseable nonnegative price and a
parseable inventory, `price`/`max_price` are the min/max variant price,
`total_inventory` the inventory sum, and `available` holds iff some variant
is available. -/
theorem scraped_record_invariants (fetch : Nat → Option (List RawShopifyProduct))
    (ctx : AgentCtx) (limit : Nat) :
    (∀ r ∈ (scrape_products fetch ctx limit).1, ∃ raw, r = parseProduct ctx raw) ∧
    (∀ raw : RawShopifyProduct,
      (parseProduct ctx raw).price ≤ (parseProduct ctx raw).max_price ∧
      (parseProduct ctx raw).variant_count = raw.variants.length) ∧
    (∀ raw : RawShopifyProduct, raw.variants ≠ [] →
      (∀ v ∈ raw.variants,
        (∃ p, v.price = some p ∧ 0 ≤ p) ∧ (∃ q, v.inventory_quantity = some q)) →
      1 ≤ (parseProduct ctx raw).variant_count ∧
      (parseProduct ctx raw).price =
        SimpleTopKAnalyzer.seriesMin (raw.variants.map (fun v => v.price.getD 0)) ∧
      (parseProduct ctx raw).max_price =
        SimpleTopKAnalyzer.seriesMax (raw.variants.map (fun v => v.price.getD 0)) ∧
      (parseProduct ctx raw).total_inventory =
        (raw.variants.map (fun v => v.inventory_quantity.getD 0)).sum ∧
      (parseProduct ctx raw).available = raw.variants.any (fun v => v.available)) := by
  refine ⟨?_, ?_, ?_⟩
  · intro r hr
    exact scrapeLoop_mem fetch ctx limit 1 r (List.take_subset _ _ hr)
  · intro raw
    exact ⟨variantFold_inv raw.variants (none, 0, 0, false) (by simp), rfl⟩
  · intro raw hne hw
    rcases hv : raw.variants with _ | ⟨v, vs⟩
    · exact absurd hv hne
    · obtain ⟨⟨p, hp, hp0⟩, ⟨q, hq⟩⟩ := hw v (by rw [hv]; exact List.mem_cons_self _ _)
      have hfirst : variantStep (none, 0, 0, false) v = (some p, max 0 p, q, v.available) := by
        simp [variantStep, hp, hq]
      have hwf := variantFold_wf vs p p q v.available
        (fun w hww => by
          obtain ⟨⟨pw, hpw, _⟩, hqw⟩ := hw w (by rw [hv]; exact List.mem_cons_of_mem _ hww)
          exact ⟨⟨pw, hpw⟩, hqw⟩)
      have hfold : scanVariants raw.variants =
          (some (vs.foldl (fun x w => min x (w.price.getD 0)) p),
           vs.foldl (fun x w => max x (w.price.getD 0)) p,
           q + (vs.map (fun w => w.inventory_quantity.getD 0)).sum,
           v.available || vs.any (fun w => w.available)) := by
        unfold scanVariants
        rw [hv, List.foldl_cons, hfirst, max_eq_right hp0, hwf]
      refine ⟨?_, ?_, ?_, ?_, ?_⟩
      · show 1 ≤ raw.variants.length
        simp [hv]
      · show (scanVariants raw.variants).1.getD 0 = _
        rw [hfold]
        simp [hp, SimpleTopKAnalyzer.seriesMin, List.foldl_map]
      · show (scanVariants raw.variants).2.1 = _
        rw [hfold]
        simp [hp, SimpleTopKAnalyzer.seriesMax, List.foldl_map]
      · show (scanVariants raw.variants).2.2.1 = _
        rw [hfold]
        simp [hq]
      · show (scanVariants raw.variants).2.2.2 = _
        rw [hfold]
        simp

open ShopifyAgent in
/-- C7 counterexample: a listing whose `variants` array is empty flows
through `scrape_products` into a record with `variant_count = 0`, refuting
`variant_count ≥ 1` for every produced record. -/
theorem scraped_variant_count_counterexample :
    ((scrape_products c7fetch ctx0 10).1.all (fun r => decide (1 ≤ r.variant_count)))
      = false := by
  have hrun := scrapeLoop_run c7fetch ctx0 1 1 10
    (by intro i hi; interval_cases i; exact ⟨rawNoVariants, [], rfl⟩)
    rfl (by decide)
  show (((scrapeLoop c7fetch ctx0 1 10).1.take 10).all (fun r => decide (1 ≤ r.variant_count)))
      = false
  rw [hrun]
  rfl

open ShopifyAgent in
/-- C7 witness: the amended invariants evaluated at the one-variant fixture
listing (price 10, inventory 3, available). -/
theorem scraped_record_invariants_witness :
    (parseProduct ctx0 rawP1).price ≤ (parseProduct ctx0 rawP1).max_price ∧
    1 ≤ (parseProduct ctx0 rawP1).variant_count ∧
    (parseProduct ctx0 rawP1).price =
      SimpleTopKAnalyzer.seriesMin (rawP1.variants.map (fun v => v.price.getD 0)) ∧
    (parseProduct ctx0 rawP1).available = rawP1.variants.any (fun v => v.available) := by
  have h := scraped_record_invariants c5fetch ctx0 10
  have h3 := h.2.2 rawP1 (by decide)
    (by
      intro v hv
      rw [show rawP1.variants = [variant1] from rfl, List.mem_singleton] at hv
      subst hv
      exact ⟨⟨10, rfl, by norm_num⟩, ⟨3, rfl⟩⟩)
  exact ⟨(h.2.1 rawP1).1, h3.1, h3.2.1, h3.2.2.2.2⟩

/-! ## Normalization lemmas (`BaseA2AAgent.normalize_product_data`) -/

namespace BaseA2AAgent

theorem get_nd_rating_text (env : NormEnv) (n : NormRec) (d : PyVal) :
    pyGet (normalizedDict env n) "rating_text" d = d := rfl

theorem get_nd_id (env : NormEnv) (n : NormRec) (d : PyVal) :
    pyGet (normalizedDict env n) "id" d = n.id := rfl

theorem get_nd_title (env : NormEnv) (n : NormRec) (d : PyVal) :
    pyGet (normalizedDict env n) "title" d = .str n.title := rfl

theorem get_nd_price (env : NormEnv) (n : NormRec) (d : PyVal) :
    pyGet (normalizedDict env n) "price" d = .num n.price := rfl

theorem get_nd_rating (env : NormEnv) (n : NormRec) (d : PyVal) :
    pyGet (normalizedDict env n) "rating" d = n.rating := rfl

theorem get_nd_review_count (env : NormEnv) (n : NormRec) (d : PyVal) :
    pyGet (normalizedDict env n) "review_count" d = n.review_count := rfl

theorem get_nd_available (env : NormEnv) (n : NormRec) (d : PyVal) :
    pyGet (normalizedDict env n) "available" d = d := rfl

theorem get_nd_description (env : NormEnv) (n : NormRec) (d : PyVal) :
    pyGet (normalizedDict env n) "description" d = d := rfl

theorem get_nd_vendor (env : NormEnv) (n : NormRec) (d : PyVal) :
    pyGet (normalizedDict env n) "vendor" d = n.vendor := rfl

theorem get_nd_product_type (env : NormEnv) (n : NormRec) (d : PyVal) :
    pyGet (normalizedDict env n) "product_type" d = d := rfl

theorem get_nd_category (env : NormEnv) (n : NormRec) (d : PyVal) :
    pyGet (normalizedDict env n) "category" d = n.category := rfl

theorem get_nd_image_url (env : NormEnv) (n : NormRec) (d : PyVal) :
    pyGet (normalizedDict env n) "image_url" d = n.image_url := rfl

theorem get_nd_url (env : NormEnv) (n : NormRec) (d : PyVal) :
    pyGet (normalizedDict env n) "url" d = d := rfl

theorem haskey_nd_rating (env : NormEnv) (n : NormRec) :
    pyHasKey (normalizedDict env n) "rating" = true := rfl

theorem haskey_nd_review_count (env : NormEnv) (n : NormRec) :
    pyHasKey (normalizedDict env n) "review_count" = true := rfl

theorem extract_rating_empty (env : NormEnv) :
    extract_rating env (.str "") = some (0, 0) := rfl

theorem clean_title_str (s : String) :
    clean_title (.str s) = some (cleanTitleStr s) := by
  by_cases h : s = ""
  · subst h; rfl
  · simp [clean_title, isTruthy, h]

theorem parse_price_num (q : ℚ) : parse_price (.num q) = q := rfl

theorem pyLen_empty : pyLen (.str "") = some 0 := rfl

/-- Inversion of a successful first normalization pass: its rating and
review count read as numbers, and the derived categorical fields are the
stated functions of the stored fields. -/
theorem normFields_inv (env : NormEnv) (raw : PyDict) (n : NormRec)
    (h : normFields env raw = some n) :
    ∃ rN rcN, asNum n.rating = some rN ∧ asNum n.review_count = some rcN ∧
      n.rating_category = categorize_rating rN ∧
      n.price_category = categorize_price n.price ∧
      n.has_image = isTruthy n.image_url := by
  unfold normFields at h
  simp only [Option.bind_eq_some] at h
  obtain ⟨rr, hrr, title, htitle, dl, hdl, rN, hrN, rcN, hrcN, hsome⟩ := h
  cases hsome
  exact ⟨rN, rcN, hrN, hrcN, rfl, rfl, rfl⟩

/-- The second normalization pass always succeeds on a first-pass output and
computes these fields: the stored `rating`/`review_count`/`price`/`id`/
`vendor`/`category`/`image_url` are read back, the title is re-cleaned, and
availability, description length and product URL fall back to the defaults
`True`, `0` and `''` because the output keys (`availability`,
`description_length`, `product_url`) differ from the keys normalization
reads (`available`, `description`, `url`). -/
theorem normFields_renormalize (env : NormEnv) (n : NormRec) (rN rcN : ℚ)
    (hr : asNum n.rating = some rN) (hrc : asNum n.review_count = some rcN) :
    normFields env (normalizedDict env n) = some
      { id := n.id
        title := cleanTitleStr n.title
        price := n.price
        rating := n.rating
        review_count := n.review_count
        availability := .bool true
        description_length := 0
        vendor := n.vendor
        category := n.category
        image_url := n.image_url
        product_url := .str ""
        has_image := isTruthy n.image_url
        has_description := false
        title_length := (cleanTitleStr n.title).length
        price_category := categorize_price n.price
        rating_category := categorize_rating rN
        popularity_score := calculate_popularity_score env rN rcN (.bool true) 0
          (isTruthy n.image_url) } := by
  unfold normFields
  simp only [get_nd_rating_text, extract_rating_empty, Option.some_bind,
    haskey_nd_rating, haskey_nd_review_count, if_true, get_nd_rating,
    get_nd_review_count, get_nd_title, clean_title_str, get_nd_price,
    parse_price_num, get_nd_available, get_nd_description, pyLen_empty,
    get_nd_vendor, get_nd_product_type, get_nd_category, get_nd_image_url,
    get_nd_url, get_nd_id, hr, hrc]
  rfl

end BaseA2AAgent

open BaseA2AAgent in
/-- C6 counterexample: normalization is not idempotent — re-normalizing the
output of `normalize_product_data` on a concrete unavailable record with a
description and a URL yields a different record (availability flips to
`True`, the description length drops to 0, the product URL empties, and the
popularity score gains the availability bonus). -/
theorem normalize_idempotence_counterexample :
    ¬ ((normalize_product_data env0 c6raw).bind (normalize_product_data env0) =
        normalize_product_data env0 c6raw) := by
  with_unfolding_all decide

open BaseA2AAgent in
/-- C6 amended: re-normalizing a normalized record always succeeds and
preserves id, price, rating, review_count, vendor, category, image_url,
has_image, price_category, rating_category and scraped_at, but resets
availability to `True`, description_length to `0` and product_url to the
empty string, because the output stores these under keys
(`availability` / `description_length` / `product_url`) that normalization
does not read back (`available` / `description` / `url`). -/
theorem normalize_renormalize (env : BaseA2AAgent.NormEnv) (raw d1 : PyDict)
    (h : BaseA2AAgent.normalize_product_data env raw = some d1) :
    ∃ d2, BaseA2AAgent.normalize_product_data env d1 = some d2 ∧
      pyGet d2 "id" (.str "?") = pyGet d1 "id" (.str "?") ∧
      pyGet d2 "price" (.str "?") = pyGet d1 "price" (.str "?") ∧
      pyGet d2 "rating" (.str "?") = pyGet d1 "rating" (.str "?") ∧
      pyGet d2 "review_count" (.str "?") = pyGet d1 "review_count" (.str "?") ∧
      pyGet d2 "vendor" (.str "?") = pyGet d1 "vendor" (.str "?") ∧
      pyGet d2 "category" (.str "?") = pyGet d1 "category" (.str "?") ∧
      pyGet d2 "image_url" (.str "?") = pyGet d1 "image_url" (.str "?") ∧
      pyGet d2 "has_image" (.str "?") = pyGet d1 "has_image" (.str "?") ∧
      pyGet d2 "price_category" (.str "?") = pyGet d1 "price_category" (.str "?") ∧
      pyGet d2 "rating_category" (.str "?") = pyGet d1 "rating_category" (.str "?") ∧
      pyGet d2 "scraped_at" (.str "?") = pyGet d1 "scraped_at" (.str "?") ∧
      pyGet d2 "availability" (.str "?") = PyVal.bool true ∧
      pyGet d2 "description_length" (.str "?") = PyVal.num 0 ∧
      pyGet d2 "product_url" (.str "?") = PyVal.str "" := by
  unfold BaseA2AAgent.normalize_product_data at h
  rcases hfe : BaseA2AAgent.normFields env raw with _ | n
  · rw [hfe] at h
    exact absurd h (by simp)
  · rw [hfe] at h
    have hd1 : BaseA2AAgent.normalizedDict env n = d1 := by
      simpa using h
    subst hd1
    obtain ⟨rN, rcN, hrN, hrcN, hratc, hpc, hhi⟩ := normFields_inv env raw n hfe
    refine ⟨BaseA2AAgent.normalizedDict env
      { id := n.id
        title := cleanTitleStr n.title
        price := n.price
        rating := n.rating
        review_count := n.review_count
        availability := .bool true
        description_length := 0
        vendor := n.vendor
        category := n.category
        image_url := n.image_url
        product_url := .str ""
        has_image := isTruthy n.image_url
        has_description := false
        title_length := (cleanTitleStr n.title).length
        price_category := categorize_price n.price
        rating_category := categorize_rating rN
        popularity_score := calculate_popularity_score env rN rcN (.bool true) 0
          (isTruthy n.image_url) }, ?_, rfl, rfl, rfl, rfl, rfl, rfl, rfl,
      ?_, ?_, ?_, rfl, rfl, rfl, rfl⟩
    · unfold BaseA2AAgent.normalize_product_data
      rw [normFields_renormalize env n rN rcN hrN hrcN]
      rfl
    · show PyVal.bool (isTruthy n.image_url) = PyVal.bool n.has_image
      rw [hhi]
    · show PyVal.str (categorize_price n.price) = PyVal.str n.price_category
      rw [hpc]
    · show PyVal.str (categorize_rating rN) = PyVal.str n.rating_category
      rw [hratc]

open BaseA2AAgent in
/-- C6 witness: the amended statement at the concrete fixtures —
`c6raw` normalizes to `c6d1`, re-normalizing gives `c6d2`, and the drifted
fields take the reset values while the price is preserved. -/
theorem normalize_renormalize_witness :
    BaseA2AAgent.normalize_product_data env0 c6raw = some c6d1 ∧
    BaseA2AAgent.normalize_product_data env0 c6d1 = some c6d2 ∧
    pyGet c6d2 "availability" (.str "?") = PyVal.bool true ∧
    pyGet c6d2 "description_length" (.str "?") = PyVal.num 0 ∧
    pyGet c6d2 "product_url" (.str "?") = PyVal.str "" ∧
    pyGet c6d2 "price" (.str "?") = pyGet c6d1 "price" (.str "?") := by
  obtain ⟨d2, hd2, hag⟩ := normalize_renormalize env0 c6raw c6d1 (by with_unfolding_all decide)
  have hc : d2 = c6d2 := by
    have h2 : BaseA2AAgent.normalize_product_data env0 c6d1 = some c6d2 := by
      with_unfolding_all decide
    rw [hd2] at h2
    exact Option.some_injective _ h2
  subst hc
  exact ⟨by with_unfolding_all decide, hd2, hag.2.2.2.2.2.2.2.2.2.2.2.1,
    hag.2.2.2.2.2.2.2.2.2.2.2.2.1, hag.2.2.2.2.2.2.2.2.2.2.2.2.2, hag.2.1⟩

open SimpleTopKAnalyzer in
/-- C10: records with a null availability are treated as available — the
analysis of a batch equals the analysis of the batch with every null
availability filled to `True` (so they sort with, and are counted with, the
available records in every statistic), and every returned record carries a
non-null availability. -/
theorem topk_null_available_as_true (products_df : List Row) (k : Nat)
    (min_price : ℚ) (category : Option String) :
    get_top_k products_df k min_price category =
      get_top_k (products_df.map fillAvailable) k min_price category ∧
    (get_top_k products_df k min_price category).top_products.all
      (fun r => r.available.isSome) = true := by
  have hcomp : fillAvailable ∘ fillAvailable = fillAvailable := funext fun r => rfl
  constructor
  · simp only [get_top_k, isEmpty_map, filteredDf_map_fill, List.length_map,
      List.map_map, hcomp]
  · rw [List.all_eq_true]
    intro r hr
    obtain ⟨s, _, hfill⟩ := mem_top_products hr
    rw [hfill]
    rfl

end SmartEcom
